import Mathlib

/-!
Verification of the RemoveBG single-page application controller
(`src/src/App.tsx`).

The controller is embedded shallowly: the four React state hooks
(`isDragging`, `isProcessing`, `processedImage`, `error`) together with the
file-input element's retained value become a record `ControllerState`; each
event handler of the component becomes a pure function on that record.
`URL.createObjectURL` is modelled by a fresh-handle counter together with a
ledger `liveHandles` of handles created and not yet revoked (the source never
calls `URL.revokeObjectURL`, so no operation removes entries from the
ledger).  The two awaited external effects — the background-removal call and
the sample-image fetch — are modelled by outcome parameters, so one call of
the Lean function corresponds to one full settlement of the asynchronous
handler.  A small `RunLog` records the observable effects the claims speak
about: whether the external `removeBackground` capability was invoked and
whether the handler set the processing flag to `true`.
-/

namespace RemoveBG

/-- A browser `File` as the controller consumes it: declared media type
(`file.type`), byte size (`file.size`) and display name (`file.name`). -/
structure InputFile where
  type : String
  size : Nat
  name : String
deriving DecidableEq

/-- The `ProcessedImage` interface of the source: object-URL handle of the
original image, object-URL handle of the processed blob, and the original
file name. Handles are modelled as natural numbers issued by
`createObjectURL`. -/
structure ProcessedImage where
  original : Nat
  processed : Nat
  filename : String
deriving DecidableEq

/-- The component's mutable state: the four `useState` hooks, the file-input
element's retained `value`, plus the object-URL machinery (`liveHandles` is
the set of created-and-not-revoked URLs, `nextHandle` the fresh-handle
counter). -/
structure ControllerState where
  isDragging : Bool
  isProcessing : Bool
  processedImage : Option ProcessedImage
  error : Option String
  liveHandles : List Nat
  nextHandle : Nat
  fileInputValue : String
deriving DecidableEq

/-- The initial state of the component: all hooks at their `useState`
defaults, no object URL created yet. -/
def initialState : ControllerState :=
  { isDragging := false
    isProcessing := false
    processedImage := none
    error := none
    liveHandles := []
    nextHandle := 0
    fileInputValue := "" }

/-- Observable effects of one handler invocation: whether the external
`removeBackground` capability was called, and whether the handler executed
`setIsProcessing(true)`. -/
structure RunLog where
  removeBackgroundCalled : Bool
  processingSetTrue : Bool
deriving DecidableEq

/-- Settlement of the awaited `removeBackground(file)` call: it either
fulfills with a processed blob or rejects. -/
inductive RBOutcome where
  | success
  | failure
deriving DecidableEq

/-- Settlement of the awaited `fetch(imageUrl)` + `response.blob()` pair in
`handleSampleImageClick`: either the promise chain rejects (network error),
or it resolves with an HTTP status and a blob carrying a content type and a
size.  Note that in the browser `fetch` resolves — it does not reject — on
non-OK HTTP statuses such as 404. -/
inductive FetchOutcome where
  | reject
  | resolve (status : Nat) (blobType : String) (blobSize : Nat)
deriving DecidableEq

/-- JavaScript's `String.prototype.startsWith`: the receiver's character
sequence begins with the argument's character sequence. -/
def startsWith (s p : String) : Bool := p.data.isPrefixOf s.data

/-- Error message of the media-type validation (`App.tsx` line 86). -/
def invalidTypeMsg : String := "请选择有效的图片文件（PNG、JPG等）"

/-- Error message of the size validation (`App.tsx` line 92). -/
def tooLargeMsg : String := "图片大小必须小于10MB"

/-- Error message of the sample-fetch catch block (`App.tsx` line 78). -/
def sampleFetchFailedMsg : String := "加载样本图片失败，请尝试上传您自己的图片。"

/-- Error message of the processing catch block (`App.tsx` line 115). -/
def processingFailedMsg : String := "背景移除失败，请尝试其他图片。"

/-- The fixed localized marker prepended to the download file name
(`App.tsx` line 126). -/
def downloadMarker : String := "已移除背景-"

/-- The size ceiling of the validation: 10 * 1024 * 1024 bytes
(`App.tsx` line 91). -/
def maxFileSize : Nat := 10 * 1024 * 1024

/-- `URL.createObjectURL`: issues a fresh handle, records it as live.  The
source never revokes any handle, so `liveHandles` only ever grows. -/
def createObjectURL (s : ControllerState) : Nat × ControllerState :=
  (s.nextHandle,
   { s with liveHandles := s.liveHandles ++ [s.nextHandle],
            nextHandle := s.nextHandle + 1 })

/-- `processImage` (`App.tsx` lines 83–119), with the awaited
`removeBackground` call replaced by its settlement `outcome`.
Control flow of the source: media-type check, then size check (each sets an
error message and returns); otherwise clear error, set the processing flag,
clear the previous result, create the original's object URL, await
`removeBackground`; on fulfillment create the processed blob's object URL
and store the result, on rejection set the failure message; `finally` clear
the processing flag. -/
def processImage (s : ControllerState) (file : InputFile)
    (outcome : RBOutcome) : ControllerState × RunLog :=
  if !(startsWith file.type "image/") then
    ({ s with error := some invalidTypeMsg },
     { removeBackgroundCalled := false, processingSetTrue := false })
  else if file.size > maxFileSize then
    ({ s with error := some tooLargeMsg },
     { removeBackgroundCalled := false, processingSetTrue := false })
  else
    let s1 := { s with error := none, isProcessing := true,
                       processedImage := none }
    let p := createObjectURL s1
    let originalUrl := p.1
    let s2 := p.2
    match outcome with
    | .success =>
        let q := createObjectURL s2
        let processedUrl := q.1
        let s3 := q.2
        let img : ProcessedImage :=
          { original := originalUrl, processed := processedUrl,
            filename := file.name }
        ({ s3 with processedImage := some img, isProcessing := false },
         { removeBackgroundCalled := true, processingSetTrue := true })
    | .failure =>
        ({ s2 with error := some processingFailedMsg, isProcessing := false },
         { removeBackgroundCalled := true, processingSetTrue := true })

/-- `handleSampleImageClick` (`App.tsx` lines 61–81), with the awaited
`fetch`/`blob` pair replaced by its settlement.  The source clears the
error, sets the processing flag, clears the result, then awaits the fetch.
If the fetch chain rejects, the catch block sets the sample-failure message
and clears the processing flag.  If it resolves — with any HTTP status,
since `response.ok` is never inspected — a `File` named `filename` with the
blob's type and size is handed to `processImage`. -/
def handleSampleImageClick (s : ControllerState) (filename : String)
    (fetchResult : FetchOutcome) (outcome : RBOutcome) :
    ControllerState × RunLog :=
  let s1 := { s with error := none, isProcessing := true,
                     processedImage := none }
  match fetchResult with
  | .reject =>
      ({ s1 with error := some sampleFetchFailedMsg, isProcessing := false },
       { removeBackgroundCalled := false, processingSetTrue := true })
  | .resolve _status blobType blobSize =>
      let file : InputFile :=
        { type := blobType, size := blobSize, name := filename }
      let r := processImage s1 file outcome
      (r.1, { r.2 with processingSetTrue := true })

/-- `handleFileSelect` (`App.tsx` lines 54–59): process the first selected
file, if any. -/
def handleFileSelect (s : ControllerState) (files : List InputFile)
    (outcome : RBOutcome) : ControllerState × RunLog :=
  match files with
  | [] => (s, { removeBackgroundCalled := false, processingSetTrue := false })
  | f :: _ => processImage s f outcome

/-- `handleDrop` (`App.tsx` lines 45–52): clear the dragging flag, then
process the first dropped file, if any. -/
def handleDrop (s : ControllerState) (files : List InputFile)
    (outcome : RBOutcome) : ControllerState × RunLog :=
  let s1 := { s with isDragging := false }
  match files with
  | [] => (s1, { removeBackgroundCalled := false, processingSetTrue := false })
  | f :: _ => processImage s1 f outcome

/-- `handleDragOver` (`App.tsx` lines 35–38). -/
def handleDragOver (s : ControllerState) : ControllerState :=
  { s with isDragging := true }

/-- `handleDragLeave` (`App.tsx` lines 40–43). -/
def handleDragLeave (s : ControllerState) : ControllerState :=
  { s with isDragging := false }

/-- `handleDownload` (`App.tsx` lines 121–130): a no-op without a result;
with a result it synthesizes the download name `已移除背景-` ++ original
file name and changes no state. The suggested name is returned as the
second component. -/
def handleDownload (s : ControllerState) : ControllerState × Option String :=
  match s.processedImage with
  | none => (s, none)
  | some img => (s, some (downloadMarker ++ img.filename))

/-- `handleReset` (`App.tsx` lines 132–138): clear the result, clear the
error, clear the file input's retained value.  No object URL is revoked —
the source contains no `URL.revokeObjectURL` call. -/
def handleReset (s : ControllerState) : ControllerState :=
  { s with processedImage := none, error := none, fileInputValue := "" }

/-- A user-visible controller operation, with the settlements of its awaited
external effects attached. -/
inductive Op where
  | fileSelect (files : List InputFile) (outcome : RBOutcome)
  | drop (files : List InputFile) (outcome : RBOutcome)
  | sampleClick (filename : String) (fetchResult : FetchOutcome)
      (outcome : RBOutcome)
  | dragOver
  | dragLeave
  | download
  | reset
deriving DecidableEq

/-- Apply one operation to the state (discarding the run log and, for
download, the synthesized name). -/
def applyOp (s : ControllerState) : Op → ControllerState
  | .fileSelect files outcome => (handleFileSelect s files outcome).1
  | .drop files outcome => (handleDrop s files outcome).1
  | .sampleClick filename fetchResult outcome =>
      (handleSampleImageClick s filename fetchResult outcome).1
  | .dragOver => handleDragOver s
  | .dragLeave => handleDragLeave s
  | .download => (handleDownload s).1
  | .reset => handleReset s

/-- Run a sequence of operations from a state. -/
def runOps (s : ControllerState) (ops : List Op) : ControllerState :=
  ops.foldl applyOp s

/-- The spec's `ViewState` consistency condition for a state: an error
message coexists neither with the processing flag being true nor with a
stored result. -/
def errorConsistent (s : ControllerState) : Prop :=
  s.error = none ∨ (s.isProcessing = false ∧ s.processedImage = none)

instance (s : ControllerState) : Decidable (errorConsistent s) := by
  unfold errorConsistent
  infer_instance

/-- A 2-MiB JPEG, used as a concrete valid input. -/
def sampleJpeg : InputFile :=
  { type := "image/jpeg", size := 2 * 1024 * 1024, name := "photo.jpg" }

/-- A plain-text file, used as a concrete invalid-type input. -/
def textFile : InputFile :=
  { type := "text/plain", size := 100, name := "note.txt" }

/-- An 11-MiB PNG, used as a concrete too-large input. -/
def hugePng : InputFile :=
  { type := "image/png", size := 11 * 1024 * 1024, name := "big.png" }

/-! ## Claim C1 — handle count after success and after reset -/

/-- Claim C1 as stated is false: after a successful run from the initial
state exactly two object-URL handles are live, but `handleReset` revokes
neither (the source contains no `URL.revokeObjectURL` call), so after the
reset two handles are still live, not zero. -/
theorem C1_counterexample :
    ((processImage initialState sampleJpeg .success).1).liveHandles.length = 2
    ∧ (handleReset
        ((processImage initialState sampleJpeg .success).1)).liveHandles.length
       = 2 := by
  decide

/-- Claim C1 amended: every successful processing run creates exactly two new
live display handles, and a subsequent reset releases neither of them — the
live-handle count is unchanged by the reset. -/
theorem C1_amended (s : ControllerState) (file : InputFile)
    (htype : startsWith file.type "image/" = true)
    (hsize : file.size ≤ maxFileSize) :
    ((processImage s file .success).1).liveHandles.length
      = s.liveHandles.length + 2
    ∧ (handleReset ((processImage s file .success).1)).liveHandles.length
      = s.liveHandles.length + 2 := by
  have hs : ¬ file.size > maxFileSize := Nat.not_lt.mpr hsize
  simp [processImage, createObjectURL, handleReset, htype, hs]

/-- Witness for `C1_amended` at the initial state and a 2-MiB JPEG. -/
theorem C1_witness :
    ((processImage initialState sampleJpeg .success).1).liveHandles.length
      = initialState.liveHandles.length + 2
    ∧ (handleReset
        ((processImage initialState sampleJpeg .success).1)).liveHandles.length
      = initialState.liveHandles.length + 2 :=
  C1_amended initialState sampleJpeg (by decide) (by decide)

/-! ## Claim C2 — failed processing run -/

/-- Claim C2 as stated is false: start from a state holding a prior result
(obtained by a successful run) and let a second valid run's
`removeBackground` call reject.  The prior result is not left as it was —
`processImage` cleared it when the run began — and one display handle (the
original image's object URL) was created by the failing run. -/
theorem C2_counterexample :
    ((processImage initialState sampleJpeg .success).1).processedImage ≠ none
    ∧ ((processImage ((processImage initialState sampleJpeg .success).1)
          sampleJpeg .failure).1).processedImage = none
    ∧ ((processImage ((processImage initialState sampleJpeg .success).1)
          sampleJpeg .failure).1).liveHandles.length
        = ((processImage initialState sampleJpeg .success).1).liveHandles.length
          + 1 := by
  decide

/-- Claim C2 amended: when the background-removal call rejects, the error is
set to the processing-failed message, the processing flag ends false and no
result is stored — but any prior result was already cleared when the run
began (it is not preserved), and exactly one display handle (the original
image's object URL) was created by the run and remains live. -/
theorem C2_amended (s : ControllerState) (file : InputFile)
    (htype : startsWith file.type "image/" = true)
    (hsize : file.size ≤ maxFileSize) :
    ((processImage s file .failure).1).error = some processingFailedMsg
    ∧ ((processImage s file .failure).1).isProcessing = false
    ∧ ((processImage s file .failure).1).processedImage = none
    ∧ ((processImage s file .failure).1).liveHandles.length
        = s.liveHandles.length + 1 := by
  have hs : ¬ file.size > maxFileSize := Nat.not_lt.mpr hsize
  simp [processImage, createObjectURL, htype, hs]

/-- Witness for `C2_amended` at the initial state and a 2-MiB JPEG. -/
theorem C2_witness :
    ((processImage initialState sampleJpeg .failure).1).error
        = some processingFailedMsg
    ∧ ((processImage initialState sampleJpeg .failure).1).isProcessing = false
    ∧ ((processImage initialState sampleJpeg .failure).1).processedImage = none
    ∧ ((processImage initialState sampleJpeg .failure).1).liveHandles.length
        = initialState.liveHandles.length + 1 :=
  C2_amended initialState sampleJpeg (by decide) (by decide)

/-! ## Claim C3 — sample fetch failure -/

/-- Evaluation of the code at the failing input of claim C3: a sample-image
click whose fetch resolves with HTTP 404.  The source never inspects
`response.ok`, so the 404 body is wrapped into a file and handed to
`processImage`.  With the typical `text/html` error-page blob the resulting
error is the invalid-type message — not the sample-fetch-failed message —
and the processing flag is left `true` (the spinner is stuck); with an
image-typed blob the external `removeBackground` call is even issued. -/
theorem C3_code_eval :
    ((handleSampleImageClick initialState "sample-portrait-1.jpg"
        (.resolve 404 "text/html" 1024) .success).1).error
      = some invalidTypeMsg
    ∧ ((handleSampleImageClick initialState "sample-portrait-1.jpg"
        (.resolve 404 "text/html" 1024) .success).1).isProcessing = true
    ∧ ((handleSampleImageClick initialState "sample-portrait-1.jpg"
        (.resolve 404 "text/html" 1024) .success).2).removeBackgroundCalled
      = false
    ∧ ((handleSampleImageClick initialState "sample-portrait-1.jpg"
        (.resolve 404 "image/png" 1024) .success).2).removeBackgroundCalled
      = true := by
  decide

/-! ## Claim C4 — error never coexists with processing or a result -/

/-- Claim C4 as stated is false: the state reached from the initial state by
a successful file-select run followed by a file-select of a non-image file
holds both an error message (the invalid-type message) and the prior stored
result, violating the claimed invariant. -/
theorem C4_counterexample :
    ¬ errorConsistent
        (runOps initialState
          [.fileSelect [sampleJpeg] .success,
           .fileSelect [textFile] .success]) := by
  decide

/-- Claim C4 amended: immediately after any settlement of a processing run
on a valid file, and immediately after any reset, an error message coexists
neither with the processing flag being true nor with a stored result.  (In
general the invariant fails: a validation failure sets an error while a
prior result stays stored, and on the sample-click path an error can
coexist with the processing flag being true.) -/
theorem C4_amended (s : ControllerState) (file : InputFile)
    (outcome : RBOutcome)
    (htype : startsWith file.type "image/" = true)
    (hsize : file.size ≤ maxFileSize) :
    errorConsistent ((processImage s file outcome).1)
    ∧ errorConsistent (handleReset s) := by
  have hs : ¬ file.size > maxFileSize := Nat.not_lt.mpr hsize
  cases outcome <;>
    simp [processImage, createObjectURL, handleReset, errorConsistent,
      htype, hs]

/-- Witness for `C4_amended` at the initial state, a 2-MiB JPEG and a
successful outcome. -/
theorem C4_witness :
    errorConsistent ((processImage initialState sampleJpeg .success).1)
    ∧ errorConsistent (handleReset initialState) :=
  C4_amended initialState sampleJpeg .success (by decide) (by decide)

/-! ## Claim C5 — invalid media type -/

/-- Claim C5: a file whose declared media type does not start with
`image/` is rejected with the invalid-type message, the external
background-removal call is not issued, the processing flag is never set
true by the run, and the state changes only in its error field. -/
theorem C5_invalid_type_rejected (s : ControllerState) (file : InputFile)
    (outcome : RBOutcome)
    (htype : startsWith file.type "image/" = false) :
    (processImage s file outcome).1 = { s with error := some invalidTypeMsg }
    ∧ (processImage s file outcome).2.removeBackgroundCalled = false
    ∧ (processImage s file outcome).2.processingSetTrue = false := by
  simp [processImage, htype]

/-- Witness for `C5_invalid_type_rejected` on a `text/plain` file. -/
theorem C5_witness :
    (processImage initialState textFile .success).1
        = { initialState with error := some invalidTypeMsg }
    ∧ (processImage initialState textFile .success).2.removeBackgroundCalled
        = false
    ∧ (processImage initialState textFile .success).2.processingSetTrue
        = false :=
  C5_invalid_type_rejected initialState textFile .success (by decide)

/-! ## Claim C6 — file too large -/

/-- Claim C6: a file with a valid image media type whose byte size exceeds
10 × 1024 × 1024 bytes is rejected with the too-large message, the external
background-removal call is not issued, the processing flag is never set
true by the run, and the state changes only in its error field. -/
theorem C6_too_large_rejected (s : ControllerState) (file : InputFile)
    (outcome : RBOutcome)
    (htype : startsWith file.type "image/" = true)
    (hsize : file.size > maxFileSize) :
    (processImage s file outcome).1 = { s with error := some tooLargeMsg }
    ∧ (processImage s file outcome).2.removeBackgroundCalled = false
    ∧ (processImage s file outcome).2.processingSetTrue = false := by
  simp [processImage, htype, hsize]

/-- Witness for `C6_too_large_rejected` on an 11-MiB PNG. -/
theorem C6_witness :
    (processImage initialState hugePng .success).1
        = { initialState with error := some tooLargeMsg }
    ∧ (processImage initialState hugePng .success).2.removeBackgroundCalled
        = false
    ∧ (processImage initialState hugePng .success).2.processingSetTrue
        = false :=
  C6_too_large_rejected initialState hugePng .success (by decide) (by decide)

/-! ## Claim C7 — validation failures change only the error -/

/-- Claim C7 as stated is false on the sample-click path: starting from a
state holding a result, a sample click whose fetched blob has type
`text/plain` ends in a validation failure, yet the previously stored result
has been cleared (by the click handler, before validation ran) and the
processing flag is left `true`, not false. -/
theorem C7_counterexample :
    ((processImage initialState sampleJpeg .success).1).processedImage ≠ none
    ∧ ((handleSampleImageClick
          ((processImage initialState sampleJpeg .success).1)
          "note.txt" (.resolve 200 "text/plain" 100) .success).1).processedImage
        = none
    ∧ ((handleSampleImageClick
          ((processImage initialState sampleJpeg .success).1)
          "note.txt" (.resolve 200 "text/plain" 100) .success).1).isProcessing
        = true := by
  decide

/-- Claim C7 amended: the validation code itself changes only the error
field — result, processing flag, handles and input value are exactly those
of the state it was given, and no background-removal call is issued.  Hence
on direct file selection or drop the flag stays false and a prior result
stays stored; but on the sample-click path the click handler has already
cleared the result and set the flag true before validation runs, so a
validation failure there leaves the result cleared and the flag true. -/
theorem C7_validation_frame (s : ControllerState) (file : InputFile)
    (outcome : RBOutcome)
    (hfail : startsWith file.type "image/" = false ∨ file.size > maxFileSize) :
    (processImage s file outcome).1.isProcessing = s.isProcessing
    ∧ (processImage s file outcome).1.processedImage = s.processedImage
    ∧ (processImage s file outcome).1.liveHandles = s.liveHandles
    ∧ (processImage s file outcome).1.nextHandle = s.nextHandle
    ∧ (processImage s file outcome).1.fileInputValue = s.fileInputValue
    ∧ (processImage s file outcome).1.isDragging = s.isDragging
    ∧ (processImage s file outcome).2.removeBackgroundCalled = false := by
  rcases hfail with htype | hsize
  · simp [processImage, htype]
  · cases htype : startsWith file.type "image/" <;>
      simp [processImage, htype, hsize]

/-- Witness for `C7_validation_frame` on a `text/plain` file. -/
theorem C7_witness :
    (processImage initialState textFile .success).1.isProcessing
        = initialState.isProcessing
    ∧ (processImage initialState textFile .success).1.processedImage
        = initialState.processedImage
    ∧ (processImage initialState textFile .success).1.liveHandles
        = initialState.liveHandles
    ∧ (processImage initialState textFile .success).1.nextHandle
        = initialState.nextHandle
    ∧ (processImage initialState textFile .success).1.fileInputValue
        = initialState.fileInputValue
    ∧ (processImage initialState textFile .success).1.isDragging
        = initialState.isDragging
    ∧ (processImage initialState textFile .success).2.removeBackgroundCalled
        = false :=
  C7_validation_frame initialState textFile .success (Or.inl (by decide))

/-! ## Claim C8 — download action -/

/-- Claim C8: whenever a result is present, the download action suggests the
file name built from the fixed localized marker followed by the original
file name, and performs no state transition at all. -/
theorem C8_download_name (s : ControllerState) (img : ProcessedImage)
    (h : s.processedImage = some img) :
    handleDownload s = (s, some (downloadMarker ++ img.filename)) := by
  simp [handleDownload, h]

/-- Witness for `C8_download_name` on the state reached by a successful run
on a 2-MiB JPEG. -/
theorem C8_witness :
    handleDownload ((processImage initialState sampleJpeg .success).1)
      = ((processImage initialState sampleJpeg .success).1,
         some (downloadMarker ++ "photo.jpg")) :=
  C8_download_name ((processImage initialState sampleJpeg .success).1)
    { original := 0, processed := 1, filename := "photo.jpg" } (by decide)

/-! ## Claim C9 — reset is idempotent -/

/-- Claim C9: applying reset twice yields exactly the state of applying it
once; the second application produces no error message and releases no
handle a second time (reset never changes the live-handle ledger at all, so
in particular the second application revokes nothing). -/
theorem C9_reset_idempotent (s : ControllerState) :
    handleReset (handleReset s) = handleReset s
    ∧ (handleReset (handleReset s)).error = none
    ∧ (handleReset (handleReset s)).liveHandles = (handleReset s).liveHandles := by
  simp [handleReset]

/-! ## Claim C10 — media-type check precedes size check -/

/-- Claim C10: a file that is both of non-image type and over the size
ceiling is rejected by the media-type check, which runs first, so the error
is the invalid-type message — and that message differs from the too-large
message. -/
theorem C10_type_check_first (s : ControllerState) (file : InputFile)
    (outcome : RBOutcome)
    (htype : startsWith file.type "image/" = false)
    (hsize : file.size > maxFileSize) :
    (processImage s file outcome).1.error = some invalidTypeMsg
    ∧ invalidTypeMsg ≠ tooLargeMsg := by
  refine ⟨by simp [processImage, htype], by decide⟩

/-- Witness for `C10_type_check_first` on an 11-MiB `text/plain` file. -/
theorem C10_witness :
    (processImage initialState
        { type := "text/plain", size := 11 * 1024 * 1024, name := "big.txt" }
        .success).1.error = some invalidTypeMsg
    ∧ invalidTypeMsg ≠ tooLargeMsg :=
  C10_type_check_first initialState
    { type := "text/plain", size := 11 * 1024 * 1024, name := "big.txt" }
    .success (by decide) (by decide)

end RemoveBG
